import Mathlib

/-
Verification of the backend-selection dispatcher in
src/cpp/src/codegen/code_generator_factory.h.

The factory CreateCodeGenerator calls a classifier (ExprVisitor.create,
declared in codegen/expr_visitor.h, whose body is not among the provided
sources) and then switches on the produced integer tag, constructing one
of three concrete code generators or reporting a TypeError.

Shallow embedding choices:
- arrow types (Status, Field, Schema) and gandiva expressions become plain
  Lean structures; shared_ptr identity is dropped, value semantics kept.
- The classifier is a parameter of the factory, a total function
  List Expression -> Status x Int; totality is modelled from the spec
  ("Exactly one BackendTag is produced per classification call").
- make_shared allocation is modelled by a counter state GenState: each
  constructed generator carries a fresh allocation identity allocId and
  construction advances the counter by one; no construction leaves it
  untouched.
- The in-out parameter `out` appears as the prior value of the caller's
  handle, so that overwriting on every path is a provable statement.
-/

/-- Model of an arrow status code; only the codes this fragment can produce
or receive are distinguished. -/
inductive StatusCode
  | OK
  | TypeError
  | OtherError
deriving DecidableEq, Repr

/-- Model of arrow::Status: a code plus a message string. -/
structure Status where
  code : StatusCode
  message : String
deriving DecidableEq, Repr

/-- Model of arrow::Status::OK(). -/
def Status.OK : Status :=
  { code := StatusCode.OK, message := "" }

/-- Model of arrow::Status::TypeError(msg). -/
def Status.TypeError (msg : String) : Status :=
  { code := StatusCode.TypeError, message := msg }

/-- Model of an arrow::Field: a (name, type) pair, the type rendered as a
string since the type system is an external collaborator here. -/
structure ArrowField where
  name : String
  type : String
deriving DecidableEq, Repr

/-- Model of an arrow::Schema: an ordered sequence of fields. -/
structure Schema where
  fields : List ArrowField
deriving DecidableEq, Repr

/-- Model of a gandiva::Expression: opaque to the factory, which only ever
hands it on; represented by its textual form. -/
structure Expression where
  node : String
deriving DecidableEq, Repr

/-- Modelled from the spec: the recognized backend tag ARROW_COMPUTE of the
codegen-type enumeration declared in codegen/expr_visitor.h (file not among
the provided sources); only the distinctness of the three recognized values
matters to the factory. -/
def ARROW_COMPUTE : Int := 0

/-- Modelled from the spec: the recognized backend tag GANDIVA of the
codegen-type enumeration declared in codegen/expr_visitor.h. -/
def GANDIVA : Int := 1

/-- Modelled from the spec: the recognized backend tag COMPUTE_EXT of the
codegen-type enumeration declared in codegen/expr_visitor.h. -/
def COMPUTE_EXT : Int := 2

/-- The three concrete generator classes, as a kind tag on the model of a
constructed generator. -/
inductive GenKind
  | ArrowCompute
  | Gandiva
  | ComputeExt
deriving DecidableEq, Repr

/-- Model of a fully constructed concrete code generator: its concrete kind
and the schema, expressions and return types its constructor received.
allocId records which make_shared allocation produced it, so that
distinctness of separately allocated handles is expressible. -/
structure CodeGenerator where
  kind : GenKind
  schema_ptr : Schema
  exprs_vector : List Expression
  ret_types : List ArrowField
  allocId : Nat
deriving DecidableEq, Repr

/-- Constructor ArrowComputeCodeGenerator(schema_ptr, exprs_vector, ret_types)
at a given fresh allocation identity. -/
def ArrowComputeCodeGenerator (schema_ptr : Schema) (exprs_vector : List Expression)
    (ret_types : List ArrowField) (allocId : Nat) : CodeGenerator :=
  { kind := GenKind.ArrowCompute, schema_ptr := schema_ptr,
    exprs_vector := exprs_vector, ret_types := ret_types, allocId := allocId }

/-- Constructor GandivaCodeGenerator(schema_ptr, exprs_vector, ret_types)
at a given fresh allocation identity. -/
def GandivaCodeGenerator (schema_ptr : Schema) (exprs_vector : List Expression)
    (ret_types : List ArrowField) (allocId : Nat) : CodeGenerator :=
  { kind := GenKind.Gandiva, schema_ptr := schema_ptr,
    exprs_vector := exprs_vector, ret_types := ret_types, allocId := allocId }

/-- Constructor ComputeExtCodeGenerator(schema_ptr, exprs_vector, ret_types)
at a given fresh allocation identity. -/
def ComputeExtCodeGenerator (schema_ptr : Schema) (exprs_vector : List Expression)
    (ret_types : List ArrowField) (allocId : Nat) : CodeGenerator :=
  { kind := GenKind.ComputeExt, schema_ptr := schema_ptr,
    exprs_vector := exprs_vector, ret_types := ret_types, allocId := allocId }

/-- Allocation state: the next fresh identity make_shared will hand out. -/
structure GenState where
  nextId : Nat
deriving DecidableEq, Repr

/-- What the caller of CreateCodeGenerator observes: the returned status and
the final contents of the handle the out parameter points at. -/
structure FactoryResult where
  status : Status
  out : Option CodeGenerator
deriving DecidableEq, Repr

/-- The switch statement of CreateCodeGenerator: dispatch on codegen_type,
assigning the out handle in every case; the default case nulls the handle
and replaces the status with the TypeError. Each construction consumes one
fresh allocation. -/
def codegenSwitch (status : Status) (codegen_type : Int) (schema_ptr : Schema)
    (exprs_vector : List Expression) (ret_types : List ArrowField) (st : GenState) :
    FactoryResult × GenState :=
  if codegen_type = ARROW_COMPUTE then
    ({ status := status,
       out := some (ArrowComputeCodeGenerator schema_ptr exprs_vector ret_types st.nextId) },
     { nextId := st.nextId + 1 })
  else if codegen_type = GANDIVA then
    ({ status := status,
       out := some (GandivaCodeGenerator schema_ptr exprs_vector ret_types st.nextId) },
     { nextId := st.nextId + 1 })
  else if codegen_type = COMPUTE_EXT then
    ({ status := status,
       out := some (ComputeExtCodeGenerator schema_ptr exprs_vector ret_types st.nextId) },
     { nextId := st.nextId + 1 })
  else
    ({ status := Status.TypeError "Unrecognized expression type.", out := none }, st)

/-- Model of CreateCodeGenerator(schema_ptr, exprs_vector, ret_types, out).
nodeVisitor is the behavior of ExprVisitor.create (its body is not among
the provided sources; modelled from the spec as a total function producing
exactly one status and one tag per call). `out` is the value the caller's
handle held before the call; every path of the switch overwrites it, so it
does not influence the result. -/
def CreateCodeGenerator (nodeVisitor : List Expression → Status × Int)
    (schema_ptr : Schema) (exprs_vector : List Expression) (ret_types : List ArrowField)
    (out : Option CodeGenerator) (st : GenState) : FactoryResult × GenState :=
  let statusTag := nodeVisitor exprs_vector
  codegenSwitch statusTag.1 statusTag.2 schema_ptr exprs_vector ret_types st

/-- Example schema from the spec scenario: fields a and b of type int32. -/
def schemaAB : Schema :=
  { fields := [{ name := "a", type := "int32" }, { name := "b", type := "int32" }] }

/-- Example expression batch from the spec scenario: a single native add. -/
def exprsAdd : List Expression :=
  [{ node := "a + b" }]

/-- Example return types from the spec scenario: one int32 output field. -/
def retSum : List ArrowField :=
  [{ name := "sum", type := "int32" }]

/-- Classifier behavior tagging every batch ARROW_COMPUTE with OK status. -/
def visitorArrow : List Expression → Status × Int :=
  fun _ => (Status.OK, ARROW_COMPUTE)

/-- Classifier behavior producing an unrecognized tag with OK status. -/
def visitorUnknown : List Expression → Status × Int :=
  fun _ => (Status.OK, 99)

/-- Classifier behavior that fails with a TypeError status while reporting
the recognized ARROW_COMPUTE tag alongside the failing status. -/
def visitorFailArrow : List Expression → Status × Int :=
  fun _ => (Status.TypeError "no backend covers this batch", ARROW_COMPUTE)

/-- Classifier behavior that fails with a TypeError status and reports an
unrecognized tag. -/
def visitorFailUnknown : List Expression → Status × Int :=
  fun _ => (Status.TypeError "no backend covers this batch", 99)

/-- C1: for every call where the classifier produces one of the three
recognized backend tags, the factory constructs exactly one concrete
generator of the matching kind (ARROW_COMPUTE yields an
ArrowComputeCodeGenerator, GANDIVA a GandivaCodeGenerator, COMPUTE_EXT a
ComputeExtCodeGenerator), built from exactly the schema, expressions and
return types passed in. -/
theorem C1_recognized_tag_constructs_matching_generator
    (nodeVisitor : List Expression → Status × Int) (schema_ptr : Schema)
    (exprs_vector : List Expression) (ret_types : List ArrowField)
    (out : Option CodeGenerator) (st : GenState) :
    ((nodeVisitor exprs_vector).2 = ARROW_COMPUTE →
      (CreateCodeGenerator nodeVisitor schema_ptr exprs_vector ret_types out st).1.out =
        some (ArrowComputeCodeGenerator schema_ptr exprs_vector ret_types st.nextId)) ∧
    ((nodeVisitor exprs_vector).2 = GANDIVA →
      (CreateCodeGenerator nodeVisitor schema_ptr exprs_vector ret_types out st).1.out =
        some (GandivaCodeGenerator schema_ptr exprs_vector ret_types st.nextId)) ∧
    ((nodeVisitor exprs_vector).2 = COMPUTE_EXT →
      (CreateCodeGenerator nodeVisitor schema_ptr exprs_vector ret_types out st).1.out =
        some (ComputeExtCodeGenerator schema_ptr exprs_vector ret_types st.nextId)) := by
  refine ⟨fun h => ?_, fun h => ?_, fun h => ?_⟩ <;>
    simp [CreateCodeGenerator, codegenSwitch, h, ARROW_COMPUTE, GANDIVA, COMPUTE_EXT]

/-- Witness for C1 at the spec scenario inputs with an ARROW_COMPUTE tag. -/
theorem C1_witness :
    (visitorArrow exprsAdd).2 = ARROW_COMPUTE ∧
    (CreateCodeGenerator visitorArrow schemaAB exprsAdd retSum none ⟨0⟩).1.out =
      some (ArrowComputeCodeGenerator schemaAB exprsAdd retSum 0) :=
  ⟨rfl,
    (C1_recognized_tag_constructs_matching_generator visitorArrow schemaAB exprsAdd retSum
        none ⟨0⟩).1 rfl⟩

/-- C2: for every call where the classifier produces a tag that is none of
the three recognized values, the handle is set to null and the returned
status is a TypeError whose message is "Unrecognized expression type.". -/
theorem C2_unrecognized_tag_null_handle_typeerror
    (nodeVisitor : List Expression → Status × Int) (schema_ptr : Schema)
    (exprs_vector : List Expression) (ret_types : List ArrowField)
    (out : Option CodeGenerator) (st : GenState)
    (h1 : (nodeVisitor exprs_vector).2 ≠ ARROW_COMPUTE)
    (h2 : (nodeVisitor exprs_vector).2 ≠ GANDIVA)
    (h3 : (nodeVisitor exprs_vector).2 ≠ COMPUTE_EXT) :
    (CreateCodeGenerator nodeVisitor schema_ptr exprs_vector ret_types out st).1.out = none ∧
    (CreateCodeGenerator nodeVisitor schema_ptr exprs_vector ret_types out st).1.status =
      Status.TypeError "Unrecognized expression type." ∧
    (CreateCodeGenerator nodeVisitor schema_ptr exprs_vector ret_types out st).1.status.code =
      StatusCode.TypeError := by
  simp [CreateCodeGenerator, codegenSwitch, h1, h2, h3, Status.TypeError]

/-- Witness for C2 with a classifier producing the unrecognized tag 99. -/
theorem C2_witness :
    ((visitorUnknown exprsAdd).2 ≠ ARROW_COMPUTE ∧ (visitorUnknown exprsAdd).2 ≠ GANDIVA ∧
      (visitorUnknown exprsAdd).2 ≠ COMPUTE_EXT) ∧
    (CreateCodeGenerator visitorUnknown schemaAB exprsAdd retSum none ⟨0⟩).1.out = none ∧
    (CreateCodeGenerator visitorUnknown schemaAB exprsAdd retSum none ⟨0⟩).1.status =
      Status.TypeError "Unrecognized expression type." :=
  ⟨⟨by decide, by decide, by decide⟩,
    (C2_unrecognized_tag_null_handle_typeerror visitorUnknown schemaAB exprsAdd retSum
      none ⟨0⟩ (by decide) (by decide) (by decide)).1,
    (C2_unrecognized_tag_null_handle_typeerror visitorUnknown schemaAB exprsAdd retSum
      none ⟨0⟩ (by decide) (by decide) (by decide)).2.1⟩

/-- C3 counterexample: a classifier call that fails (non-OK status) while
reporting the recognized ARROW_COMPUTE tag still makes the factory
construct a generator: the dispatch switch never consults the status, so
the handle is not null. -/
theorem C3_counterexample :
    (visitorFailArrow exprsAdd).1.code ≠ StatusCode.OK ∧
    (CreateCodeGenerator visitorFailArrow schemaAB exprsAdd retSum none ⟨0⟩).1.out ≠ none := by
  decide

/-- C3 (amended): when classification fails and the tag accompanying the
failing status is not one of the three recognized values, no generator is
constructed (the allocation state is untouched) and the handle is null;
the factory dispatches on the tag alone, so this cannot hold regardless of
the accompanying tag. -/
theorem C3_amended_failure_with_unrecognized_tag_is_null
    (nodeVisitor : List Expression → Status × Int) (schema_ptr : Schema)
    (exprs_vector : List Expression) (ret_types : List ArrowField)
    (out : Option CodeGenerator) (st : GenState)
    (hfail : (nodeVisitor exprs_vector).1.code ≠ StatusCode.OK)
    (h1 : (nodeVisitor exprs_vector).2 ≠ ARROW_COMPUTE)
    (h2 : (nodeVisitor exprs_vector).2 ≠ GANDIVA)
    (h3 : (nodeVisitor exprs_vector).2 ≠ COMPUTE_EXT) :
    (CreateCodeGenerator nodeVisitor schema_ptr exprs_vector ret_types out st).1.out = none ∧
    (CreateCodeGenerator nodeVisitor schema_ptr exprs_vector ret_types out st).2 = st := by
  simp [CreateCodeGenerator, codegenSwitch, h1, h2, h3]

/-- Witness for the amended C3 with a failing classifier reporting tag 99. -/
theorem C3_amended_witness :
    ((visitorFailUnknown exprsAdd).1.code ≠ StatusCode.OK ∧
      (visitorFailUnknown exprsAdd).2 ≠ ARROW_COMPUTE ∧
      (visitorFailUnknown exprsAdd).2 ≠ GANDIVA ∧
      (visitorFailUnknown exprsAdd).2 ≠ COMPUTE_EXT) ∧
    (CreateCodeGenerator visitorFailUnknown schemaAB exprsAdd retSum none ⟨0⟩).1.out = none :=
  ⟨⟨by decide, by decide, by decide, by decide⟩,
    (C3_amended_failure_with_unrecognized_tag_is_null visitorFailUnknown schemaAB exprsAdd
      retSum none ⟨0⟩ (by decide) (by decide) (by decide) (by decide)).1⟩

/-- C4: every call constructs at most one generator: on a recognized tag
exactly one allocation happens and the handle holds the fully constructed
generator carrying that fresh allocation; otherwise no allocation happens
and the handle is null. There is no path constructing two generators, no
fallback between constructors, and no partial object. -/
theorem C4_at_most_one_generator_per_call
    (nodeVisitor : List Expression → Status × Int) (schema_ptr : Schema)
    (exprs_vector : List Expression) (ret_types : List ArrowField)
    (out : Option CodeGenerator) (st : GenState) :
    ((CreateCodeGenerator nodeVisitor schema_ptr exprs_vector ret_types out st).2.nextId =
        st.nextId + 1 ∧
      ∃ g, (CreateCodeGenerator nodeVisitor schema_ptr exprs_vector ret_types out st).1.out =
          some g ∧ g.allocId = st.nextId) ∨
    ((CreateCodeGenerator nodeVisitor schema_ptr exprs_vector ret_types out st).2 = st ∧
      (CreateCodeGenerator nodeVisitor schema_ptr exprs_vector ret_types out st).1.out =
        none) := by
  by_cases h0 : (nodeVisitor exprs_vector).2 = ARROW_COMPUTE
  · exact Or.inl (by simp [CreateCodeGenerator, codegenSwitch, h0, ArrowComputeCodeGenerator])
  by_cases h1 : (nodeVisitor exprs_vector).2 = GANDIVA
  · exact Or.inl (by simp [CreateCodeGenerator, codegenSwitch, h0, h1, GandivaCodeGenerator,
      ARROW_COMPUTE, GANDIVA, COMPUTE_EXT])
  by_cases h2 : (nodeVisitor exprs_vector).2 = COMPUTE_EXT
  · exact Or.inl (by simp [CreateCodeGenerator, codegenSwitch, h0, h1, h2,
      ComputeExtCodeGenerator, ARROW_COMPUTE, GANDIVA, COMPUTE_EXT])
  · exact Or.inr (by simp [CreateCodeGenerator, codegenSwitch, h0, h1, h2])

/-- C5: for any non-empty expression batch that the classifier tags
ARROW_COMPUTE (NativeVectorized) with success status, the factory returns a
non-null handle. -/
theorem C5_native_vectorized_gives_nonnull_handle
    (nodeVisitor : List Expression → Status × Int) (schema_ptr : Schema)
    (exprs_vector : List Expression) (ret_types : List ArrowField)
    (out : Option CodeGenerator) (st : GenState)
    (hne : exprs_vector ≠ [])
    (hok : (nodeVisitor exprs_vector).1 = Status.OK)
    (htag : (nodeVisitor exprs_vector).2 = ARROW_COMPUTE) :
    (CreateCodeGenerator nodeVisitor schema_ptr exprs_vector ret_types out st).1.out ≠
      none := by
  simp [CreateCodeGenerator, codegenSwitch, htag]

/-- Witness for C5 at the spec scenario: schema (a, b : int32), the single
native add expression, one int32 return field. -/
theorem C5_witness :
    (exprsAdd ≠ [] ∧ (visitorArrow exprsAdd).1 = Status.OK ∧
      (visitorArrow exprsAdd).2 = ARROW_COMPUTE) ∧
    (CreateCodeGenerator visitorArrow schemaAB exprsAdd retSum none ⟨0⟩).1.out ≠ none :=
  ⟨⟨by decide, rfl, rfl⟩,
    C5_native_vectorized_gives_nonnull_handle visitorArrow schemaAB exprsAdd retSum none ⟨0⟩
      (by decide) rfl rfl⟩

/-- C6: the integer tag the dispatch switch reads is exactly the value the
classifier call produced: the whole factory call equals the switch applied
to the classifier's returned status and tag. The classifier is modelled
from the spec as a total function (it produces exactly one tag per call,
on error paths included), so the dispatched value is always definite. -/
theorem C6_switch_reads_classifier_assigned_tag
    (nodeVisitor : List Expression → Status × Int) (schema_ptr : Schema)
    (exprs_vector : List Expression) (ret_types : List ArrowField)
    (out : Option CodeGenerator) (st : GenState) :
    CreateCodeGenerator nodeVisitor schema_ptr exprs_vector ret_types out st =
      codegenSwitch (nodeVisitor exprs_vector).1 (nodeVisitor exprs_vector).2 schema_ptr
        exprs_vector ret_types st := rfl

/-- C7: whenever the classifier's tag is one of the three recognized
values, the status the factory returns is exactly the classifier's status,
unchanged; only the unrecognized-tag branch replaces it. -/
theorem C7_recognized_tag_returns_classifier_status
    (nodeVisitor : List Expression → Status × Int) (schema_ptr : Schema)
    (exprs_vector : List Expression) (ret_types : List ArrowField)
    (out : Option CodeGenerator) (st : GenState)
    (h : (nodeVisitor exprs_vector).2 = ARROW_COMPUTE ∨
      (nodeVisitor exprs_vector).2 = GANDIVA ∨
      (nodeVisitor exprs_vector).2 = COMPUTE_EXT) :
    (CreateCodeGenerator nodeVisitor schema_ptr exprs_vector ret_types out st).1.status =
      (nodeVisitor exprs_vector).1 := by
  rcases h with h | h | h <;>
    simp [CreateCodeGenerator, codegenSwitch, h, ARROW_COMPUTE, GANDIVA, COMPUTE_EXT]

/-- Witness for C7: the failing classifier status travels through the
factory unchanged when the tag is recognized. -/
theorem C7_witness :
    ((visitorFailArrow exprsAdd).2 = ARROW_COMPUTE ∨
      (visitorFailArrow exprsAdd).2 = GANDIVA ∨
      (visitorFailArrow exprsAdd).2 = COMPUTE_EXT) ∧
    (CreateCodeGenerator visitorFailArrow schemaAB exprsAdd retSum none ⟨0⟩).1.status =
      (visitorFailArrow exprsAdd).1 :=
  ⟨Or.inl rfl,
    C7_recognized_tag_returns_classifier_status visitorFailArrow schemaAB exprsAdd retSum
      none ⟨0⟩ (Or.inl rfl)⟩

/-- C8: two successive calls with identical arguments return the same
status, handles of the same concrete kind, and two distinct freshly
allocated handles (different allocation identities); the observable result
of a call (status and generator kind) does not depend on any state a
previous call wrote — the allocation counter influences only the fresh
identity. -/
theorem C8_repeat_call_deterministic_distinct_handles
    (nodeVisitor : List Expression → Status × Int) (schema_ptr : Schema)
    (exprs_vector : List Expression) (ret_types : List ArrowField)
    (out : Option CodeGenerator) (st : GenState) :
    ((CreateCodeGenerator nodeVisitor schema_ptr exprs_vector ret_types out
        (CreateCodeGenerator nodeVisitor schema_ptr exprs_vector ret_types out st).2).1.status =
      (CreateCodeGenerator nodeVisitor schema_ptr exprs_vector ret_types out st).1.status) ∧
    (Option.map CodeGenerator.kind
        (CreateCodeGenerator nodeVisitor schema_ptr exprs_vector ret_types out
          (CreateCodeGenerator nodeVisitor schema_ptr exprs_vector ret_types out st).2).1.out =
      Option.map CodeGenerator.kind
        (CreateCodeGenerator nodeVisitor schema_ptr exprs_vector ret_types out st).1.out) ∧
    (∀ g1 g2,
      (CreateCodeGenerator nodeVisitor schema_ptr exprs_vector ret_types out st).1.out =
        some g1 →
      (CreateCodeGenerator nodeVisitor schema_ptr exprs_vector ret_types out
          (CreateCodeGenerator nodeVisitor schema_ptr exprs_vector ret_types out st).2).1.out =
        some g2 →
      g1.kind = g2.kind ∧ g1.allocId ≠ g2.allocId) := by
  by_cases h0 : (nodeVisitor exprs_vector).2 = ARROW_COMPUTE
  · refine ⟨?_, ?_, ?_⟩ <;>
      simp [CreateCodeGenerator, codegenSwitch, h0, ArrowComputeCodeGenerator,
        ARROW_COMPUTE, GANDIVA, COMPUTE_EXT]
  by_cases h1 : (nodeVisitor exprs_vector).2 = GANDIVA
  · refine ⟨?_, ?_, ?_⟩ <;>
      simp [CreateCodeGenerator, codegenSwitch, h0, h1, GandivaCodeGenerator,
        ARROW_COMPUTE, GANDIVA, COMPUTE_EXT]
  by_cases h2 : (nodeVisitor exprs_vector).2 = COMPUTE_EXT
  · refine ⟨?_, ?_, ?_⟩ <;>
      simp [CreateCodeGenerator, codegenSwitch, h0, h1, h2, ComputeExtCodeGenerator,
        ARROW_COMPUTE, GANDIVA, COMPUTE_EXT]
  · refine ⟨?_, ?_, ?_⟩ <;>
      simp [CreateCodeGenerator, codegenSwitch, h0, h1, h2]

/-- Witness for C8: the two successive calls at the spec scenario inputs
yield generators of equal kind with distinct allocation identities. -/
theorem C8_witness :
    (CreateCodeGenerator visitorArrow schemaAB exprsAdd retSum none ⟨0⟩).1.out =
      some (ArrowComputeCodeGenerator schemaAB exprsAdd retSum 0) ∧
    (CreateCodeGenerator visitorArrow schemaAB exprsAdd retSum none
        (CreateCodeGenerator visitorArrow schemaAB exprsAdd retSum none ⟨0⟩).2).1.out =
      some (ArrowComputeCodeGenerator schemaAB exprsAdd retSum 1) ∧
    ((ArrowComputeCodeGenerator schemaAB exprsAdd retSum 0).kind =
        (ArrowComputeCodeGenerator schemaAB exprsAdd retSum 1).kind ∧
      (ArrowComputeCodeGenerator schemaAB exprsAdd retSum 0).allocId ≠
        (ArrowComputeCodeGenerator schemaAB exprsAdd retSum 1).allocId) :=
  ⟨rfl, rfl,
    (C8_repeat_call_deterministic_distinct_handles visitorArrow schemaAB exprsAdd retSum
      none ⟨0⟩).2.2 (ArrowComputeCodeGenerator schemaAB exprsAdd retSum 0)
      (ArrowComputeCodeGenerator schemaAB exprsAdd retSum 1) rfl rfl⟩

/-- C9: the only effect of a call is the single allocation of the one
constructed generator (the allocation state advances by exactly one when a
generator is constructed and is untouched otherwise), and the constructed
generator holds exactly the schema, expressions and return types the caller
passed, unchanged. -/
theorem C9_no_effect_beyond_single_allocation
    (nodeVisitor : List Expression → Status × Int) (schema_ptr : Schema)
    (exprs_vector : List Expression) (ret_types : List ArrowField)
    (out : Option CodeGenerator) (st : GenState) :
    ((CreateCodeGenerator nodeVisitor schema_ptr exprs_vector ret_types out st).2.nextId =
      if Option.isSome
          (CreateCodeGenerator nodeVisitor schema_ptr exprs_vector ret_types out st).1.out
        then st.nextId + 1 else st.nextId) ∧
    (∀ g,
      (CreateCodeGenerator nodeVisitor schema_ptr exprs_vector ret_types out st).1.out =
        some g →
      g.schema_ptr = schema_ptr ∧ g.exprs_vector = exprs_vector ∧
        g.ret_types = ret_types) := by
  by_cases h0 : (nodeVisitor exprs_vector).2 = ARROW_COMPUTE
  · refine ⟨?_, ?_⟩ <;>
      simp [CreateCodeGenerator, codegenSwitch, h0, ArrowComputeCodeGenerator,
        ARROW_COMPUTE, GANDIVA, COMPUTE_EXT]
  by_cases h1 : (nodeVisitor exprs_vector).2 = GANDIVA
  · refine ⟨?_, ?_⟩ <;>
      simp [CreateCodeGenerator, codegenSwitch, h0, h1, GandivaCodeGenerator,
        ARROW_COMPUTE, GANDIVA, COMPUTE_EXT]
  by_cases h2 : (nodeVisitor exprs_vector).2 = COMPUTE_EXT
  · refine ⟨?_, ?_⟩ <;>
      simp [CreateCodeGenerator, codegenSwitch, h0, h1, h2, ComputeExtCodeGenerator,
        ARROW_COMPUTE, GANDIVA, COMPUTE_EXT]
  · refine ⟨?_, ?_⟩ <;>
      simp [CreateCodeGenerator, codegenSwitch, h0, h1, h2]

/-- Witness for C9: the generator constructed at the spec scenario inputs
carries exactly the caller's schema, expressions and return types. -/
theorem C9_witness :
    (ArrowComputeCodeGenerator schemaAB exprsAdd retSum 0).schema_ptr = schemaAB ∧
    (ArrowComputeCodeGenerator schemaAB exprsAdd retSum 0).exprs_vector = exprsAdd ∧
    (ArrowComputeCodeGenerator schemaAB exprsAdd retSum 0).ret_types = retSum :=
  (C9_no_effect_beyond_single_allocation visitorArrow schemaAB exprsAdd retSum none ⟨0⟩).2
    (ArrowComputeCodeGenerator schemaAB exprsAdd retSum 0) rfl

/-- C10: every path assigns the caller's out handle: the result does not
depend on whatever the handle held before the call, and afterwards the
handle is either null or a freshly constructed generator carrying the fresh
allocation identity of this call. -/
theorem C10_out_handle_always_assigned
    (nodeVisitor : List Expression → Status × Int) (schema_ptr : Schema)
    (exprs_vector : List Expression) (ret_types : List ArrowField)
    (out : Option CodeGenerator) (st : GenState) :
    (∀ o1 o2 : Option CodeGenerator,
      CreateCodeGenerator nodeVisitor schema_ptr exprs_vector ret_types o1 st =
        CreateCodeGenerator nodeVisitor schema_ptr exprs_vector ret_types o2 st) ∧
    ((CreateCodeGenerator nodeVisitor schema_ptr exprs_vector ret_types out st).1.out =
        none ∨
      ∃ g, (CreateCodeGenerator nodeVisitor schema_ptr exprs_vector ret_types out st).1.out =
          some g ∧ g.allocId = st.nextId) := by
  refine ⟨fun o1 o2 => rfl, ?_⟩
  by_cases h0 : (nodeVisitor exprs_vector).2 = ARROW_COMPUTE
  · exact Or.inr (by simp [CreateCodeGenerator, codegenSwitch, h0,
      ArrowComputeCodeGenerator, ARROW_COMPUTE, GANDIVA, COMPUTE_EXT])
  by_cases h1 : (nodeVisitor exprs_vector).2 = GANDIVA
  · exact Or.inr (by simp [CreateCodeGenerator, codegenSwitch, h0, h1, GandivaCodeGenerator,
      ARROW_COMPUTE, GANDIVA, COMPUTE_EXT])
  by_cases h2 : (nodeVisitor exprs_vector).2 = COMPUTE_EXT
  · exact Or.inr (by simp [CreateCodeGenerator, codegenSwitch, h0, h1, h2,
      ComputeExtCodeGenerator, ARROW_COMPUTE, GANDIVA, COMPUTE_EXT])
  · exact Or.inl (by simp [CreateCodeGenerator, codegenSwitch, h0, h1, h2])
